import Mathlib

/-!
Shallow embedding of the tutorial notebook
`src/_build/jupyter_execute/1_spikesorting.py` (a Jupyter-exported Python
script that drives the nwb_datajoint spike-sorting pipeline), together with
proofs about the claims made in the specification of this repository.

The embedding has three layers:

1. A statement-level transcription of every executable statement of the
   notebook (`notebook`), recording for each statement its source line, a
   syntactic classification, and the flags the claims speak about
   (insert1 calls, `skip_duplicates` options, dictionary-vs-list row
   arguments, conditionals, filtering comprehensions, try/except, loops,
   mentions of `num_workers`).

2. Value-level embeddings of the local computations the notebook authors:
   the dictionary-override construction of the mountainsort4 parameter set,
   the numpy construction of the 180-second sort interval (with an explicit
   heap so aliasing and mutation are modelled faithfully), the `ssr_key` /
   `ss_key` dictionary aliasing, and the `member_dict` filtering
   comprehension.

3. Models of the external datajoint framework operations the notebook
   invokes (`insert1` with duplicate suppression, `fetch1`, sequential
   cell execution), modelled from the specification because the framework
   itself is not part of this repository.
-/

/-- A runtime value appearing in the notebook dictionaries: integers,
booleans, strings, rationals (for floating timestamps), and rational
arrays (for numpy interval arrays). -/
inductive Val where
  | vInt : Int → Val
  | vBool : Bool → Val
  | vStr : String → Val
  | vRat : ℚ → Val
  | vArr : List ℚ → Val
deriving DecidableEq, Repr

/-- A Python dictionary with string keys, as an association list that
preserves insertion order (as Python dicts do). -/
abbrev Dict := List (String × Val)

/-- Dictionary lookup: `d[k]` as an `Option`, returning the binding of
the first occurrence of the key. -/
def dictGet : Dict → String → Option Val
  | [], _ => none
  | p :: d, k => if p.1 = k then some p.2 else dictGet d k

/-- Dictionary assignment `d[k] = v`: updates an existing key in place,
otherwise appends the new binding at the end (Python dict semantics:
keys are unique and insertion order is preserved). -/
def dictSet : Dict → String → Val → Dict
  | [], k, v => [(k, v)]
  | p :: d, k, v => if p.1 = k then (k, v) :: d else p :: dictSet d k v

/-- Syntactic classification of one executable statement of the notebook. -/
inductive StmtKind where
  /-- An `import` or `from ... import ...` statement. -/
  | importDecl
  /-- An assignment: a constant binding, a variable binding, a dictionary
  key assignment, or an array element assignment. -/
  | assign
  /-- A direct call into an external library (datajoint tables,
  nwb_datajoint helpers, sortingview, warnings, print). -/
  | call
  /-- A bare expression cell displaying a table query or a value. -/
  | queryDisplay
  /-- An `if` statement: a conditional branch authored in the notebook. -/
  | condBranch
  /-- A list comprehension with an `if` clause: data-dependent filtering
  authored in the notebook. -/
  | filterComp
deriving DecidableEq, Repr

/-- One executable statement of the notebook: its line in
`1_spikesorting.py`, its classification, and the flags the claims need. -/
structure Stmt where
  line : Nat
  kind : StmtKind
  desc : String
  /-- The statement is a call to a datajoint `insert1` method. -/
  isInsert1 : Bool := false
  /-- The `insert1` call passes `skip_duplicates=True`. -/
  skipDuplicates : Bool := false
  /-- The row argument of the `insert1` call is a dictionary
  (as opposed to a positional list). -/
  rowIsDict : Bool := false
  /-- The statement is a `try`/`except` handler. -/
  isTryExcept : Bool := false
  /-- The statement is a loop (`for`/`while`). -/
  isLoop : Bool := false
  /-- The statement textually mentions the `num_workers` key. -/
  mentionsNumWorkers : Bool := false
deriving DecidableEq, Repr

set_option maxHeartbeats 1600000 in
/-- Every executable statement of
`src/_build/jupyter_execute/1_spikesorting.py`, in program order, one
entry per statement, keyed by source line. -/
def notebook : List Stmt := [
  { line := 41,  kind := .importDecl, desc := "import os" },
  { line := 42,  kind := .importDecl, desc := "import numpy as np" },
  { line := 43,  kind := .importDecl, desc := "import datajoint as dj" },
  { line := 44,  kind := .importDecl, desc := "import nwb_datajoint as nd" },
  { line := 46,  kind := .importDecl, desc := "import warnings" },
  { line := 47,  kind := .call, desc := "warnings.simplefilter ignore DeprecationWarning" },
  { line := 48,  kind := .call, desc := "warnings.simplefilter ignore ResourceWarning" },
  { line := 49,  kind := .importDecl, desc := "from nwb_datajoint.common import tables" },
  { line := 68,  kind := .assign, desc := "your_name constant" },
  { line := 69,  kind := .assign, desc := "your_email constant" },
  { line := 70,  kind := .assign, desc := "datajoint_username constant" },
  { line := 76,  kind := .assign, desc := "lorenlab_team_members from LabTeamMember fetch" },
  { line := 77,  kind := .call, desc := "LabMember.insert_from_name" },
  { line := 78,  kind := .call, desc := "LabMember.LabMemberInfo.insert1 positional list",
    isInsert1 := true, skipDuplicates := true, rowIsDict := false },
  { line := 79,  kind := .call, desc := "LabTeam.LabTeamMember.insert1 dict",
    isInsert1 := true, skipDuplicates := true, rowIsDict := true },
  { line := 88,  kind := .condBranch, desc := "if your_name in LabTeam fetch then print" },
  { line := 98,  kind := .call, desc := "nd.insert_sessions" },
  { line := 99,  kind := .assign, desc := "nwb_file_name constant" },
  { line := 115, kind := .call, desc := "SortGroup set_group_by_shank" },
  { line := 123, kind := .queryDisplay, desc := "SortGroup.SortGroupElectrode query" },
  { line := 132, kind := .queryDisplay, desc := "IntervalList query" },
  { line := 140, kind := .assign, desc := "interval_list_name constant" },
  { line := 141, kind := .assign, desc := "interval_list from IntervalList fetch1" },
  { line := 143, kind := .call, desc := "print epoch length" },
  { line := 152, kind := .assign, desc := "sort_interval aliases interval_list 0" },
  { line := 153, kind := .assign, desc := "sort_interval_name concatenation" },
  { line := 154, kind := .assign, desc := "sort_interval rebinds to np.copy" },
  { line := 155, kind := .assign, desc := "sort_interval element 1 set to start plus 180" },
  { line := 163, kind := .call, desc := "SortInterval.insert1 dict",
    isInsert1 := true, skipDuplicates := true, rowIsDict := true },
  { line := 173, kind := .queryDisplay, desc := "SortInterval query" },
  { line := 181, kind := .assign, desc := "fetched_sort_interval from fetch1" },
  { line := 183, kind := .call, desc := "print fetched interval" },
  { line := 192, kind := .queryDisplay, desc := "SpikeSortingFilterParameters display" },
  { line := 200, kind := .call, desc := "SpikeSortingFilterParameters insert_default" },
  { line := 201, kind := .assign, desc := "filter_param_dict from fetch1" },
  { line := 203, kind := .call, desc := "print filter_param_dict" },
  { line := 211, kind := .assign, desc := "filter_param_dict frequency_min set to 600" },
  { line := 212, kind := .call, desc := "SpikeSortingFilterParameters insert1 dict",
    isInsert1 := true, skipDuplicates := true, rowIsDict := true },
  { line := 222, kind := .call, desc := "SpikeSortingArtifactDetectionParameters insert_default" },
  { line := 231, kind := .assign, desc := "key bound to empty dict" },
  { line := 232, kind := .assign, desc := "key nwb_file_name set" },
  { line := 233, kind := .assign, desc := "key sort_group_id set to 10" },
  { line := 234, kind := .assign, desc := "key sort_interval_name set" },
  { line := 235, kind := .assign, desc := "key filter_parameter_set_name set" },
  { line := 236, kind := .assign, desc := "key artifact_parameter_name set" },
  { line := 237, kind := .assign, desc := "key interval_list_name set" },
  { line := 238, kind := .assign, desc := "key team_name set" },
  { line := 240, kind := .assign, desc := "ssr_key aliases key" },
  { line := 249, kind := .call, desc := "SpikeSortingRecordingSelection.insert1 ssr_key dict",
    isInsert1 := true, skipDuplicates := true, rowIsDict := true },
  { line := 250, kind := .queryDisplay, desc := "SpikeSortingRecordingSelection query" },
  { line := 259, kind := .call, desc := "SpikeSortingRecording.populate" },
  { line := 267, kind := .queryDisplay, desc := "SpikeSortingRecording query" },
  { line := 276, kind := .call, desc := "SpikeSortingWorkspace.populate" },
  { line := 282, kind := .queryDisplay, desc := "SpikeSortingWorkspace query" },
  { line := 295, kind := .call, desc := "SpikeSorter insert_from_spikeinterface" },
  { line := 296, kind := .call, desc := "SpikeSorterParameters insert_from_spikeinterface" },
  { line := 303, kind := .assign, desc := "sorter_name constant mountainsort4" },
  { line := 304, kind := .assign, desc := "ms4_default_params from fetch1" },
  { line := 306, kind := .call, desc := "print ms4_default_params" },
  { line := 314, kind := .assign, desc := "param_dict aliases parameter_dict entry" },
  { line := 316, kind := .assign, desc := "param_dict detect_sign set to minus 1" },
  { line := 318, kind := .assign, desc := "param_dict adjacency_radius set to 100" },
  { line := 319, kind := .assign, desc := "param_dict curation set to False" },
  { line := 321, kind := .assign, desc := "param_dict filter set to False" },
  { line := 322, kind := .assign, desc := "param_dict freq_min set to 0" },
  { line := 323, kind := .assign, desc := "param_dict freq_max set to 0" },
  { line := 325, kind := .assign, desc := "param_dict whiten set to False" },
  { line := 327, kind := .assign, desc := "param_dict num_workers set to 4",
    mentionsNumWorkers := true },
  { line := 328, kind := .assign, desc := "param_dict verbose set to True" },
  { line := 330, kind := .assign, desc := "param_dict clip_size from sampling rate" },
  { line := 331, kind := .assign, desc := "param_dict noise_overlap_threshold set to 0" },
  { line := 332, kind := .queryDisplay, desc := "param_dict display" },
  { line := 341, kind := .assign, desc := "parameter_set_name constant" },
  { line := 349, kind := .call, desc := "SpikeSorterParameters.insert1 dict",
    isInsert1 := true, skipDuplicates := true, rowIsDict := true },
  { line := 353, kind := .assign, desc := "p from SpikeSorterParameters fetch1" },
  { line := 354, kind := .queryDisplay, desc := "p display" },
  { line := 364, kind := .assign, desc := "key rebinds to workspace fetch1 KEY" },
  { line := 365, kind := .assign, desc := "key sorter_name set" },
  { line := 366, kind := .assign, desc := "key spikesorter_parameter_set_name set" },
  { line := 367, kind := .assign, desc := "ss_key aliases key" },
  { line := 368, kind := .call, desc := "SpikeSortingSelection.insert1 ss_key dict",
    isInsert1 := true, skipDuplicates := true, rowIsDict := true },
  { line := 369, kind := .queryDisplay, desc := "SpikeSortingSelection query" },
  { line := 378, kind := .call, desc := "SpikeSorting.populate" },
  { line := 386, kind := .queryDisplay, desc := "SpikeSorting query" },
  { line := 395, kind := .call, desc := "SpikeSortingWorkspace precalculate" },
  { line := 403, kind := .importDecl, desc := "import sortingview as sv" },
  { line := 404, kind := .assign, desc := "workspace from sv.load_workspace" },
  { line := 405, kind := .assign, desc := "sorting_id from SortingID fetch1" },
  { line := 406, kind := .assign, desc := "recording_id from workspace" },
  { line := 407, kind := .assign, desc := "url from experimental_spikesortingview" },
  { line := 409, kind := .assign, desc := "member_emails from LabMemberInfo fetch" },
  { line := 410, kind := .filterComp, desc := "member_dict comprehension filtered by team membership" },
  { line := 411, kind := .call, desc := "workspace.set_sorting_curation_authorized_users" },
  { line := 412, kind := .call, desc := "print url" }
]

/-- A statement is simple in the sense of the component-design section of
the spec: an import, a constant/key assignment, a display, or a direct
call into the external framework, with no conditional branch, no
data-dependent filtering, no try/except handler and no loop. -/
def isSimple (s : Stmt) : Prop :=
  s.kind ≠ .condBranch ∧ s.kind ≠ .filterComp ∧
  s.isTryExcept = false ∧ s.isLoop = false

instance (s : Stmt) : Decidable (isSimple s) := by
  unfold isSimple; infer_instance

/-!
## The mountainsort4 parameter dictionary (notebook lines 314 to 331)

`param_dict` starts as the fetched mountainsort4 default `parameter_dict`
and is then overwritten key by key. `clip_size` is computed on line 330
from the fetched sampling rate, so it stays a parameter here.
-/

/-- The eleven key overwrites applied to the fetched mountainsort4 default
`parameter_dict` on lines 316 to 331, in program order. -/
def ms4Overrides (clipSize : Int) : List (String × Val) := [
  ("detect_sign", .vInt (-1)),
  ("adjacency_radius", .vInt 100),
  ("curation", .vBool false),
  ("filter", .vBool false),
  ("freq_min", .vInt 0),
  ("freq_max", .vInt 0),
  ("whiten", .vBool false),
  ("num_workers", .vInt 4),
  ("verbose", .vBool true),
  ("clip_size", .vInt clipSize),
  ("noise_overlap_threshold", .vInt 0)
]

/-- Apply a list of key assignments to a dictionary, left to right. -/
def applyOverrides (d : Dict) (ovs : List (String × Val)) : Dict :=
  ovs.foldl (fun d kv => dictSet d kv.1 kv.2) d

/-- The `param_dict` the notebook builds from the fetched mountainsort4
default dictionary `d` (lines 314 to 331). -/
def ms4ParamDict (d : Dict) (clipSize : Int) : Dict :=
  applyOverrides d (ms4Overrides clipSize)

/-- The row inserted into `SpikeSorterParameters` on lines 349 to 351. -/
structure SorterParamsRow where
  sorter_name : String
  spikesorter_parameter_set_name : String
  parameter_dict : Dict
deriving DecidableEq, Repr

/-- The concrete row the notebook inserts into `SpikeSorterParameters`:
the `franklab_hippocampus_tutorial` parameter set for `mountainsort4`,
carrying `param_dict` unchanged. -/
def spikeSorterParamsRow (d : Dict) (clipSize : Int) : SorterParamsRow :=
  { sorter_name := "mountainsort4",
    spikesorter_parameter_set_name := "franklab_hippocampus_tutorial",
    parameter_dict := ms4ParamDict d clipSize }

/-!
## Numpy heap model for the sort interval (notebook lines 152 to 155)

Numpy arrays live on a heap addressed by array ids; variables are bound to
ids, so plain assignment aliases while `np.copy` allocates. This is needed
to state the frame claims faithfully: line 152 first aliases
`sort_interval` to `interval_list[0]`, line 154 rebinds it to a fresh
copy, and line 155 mutates element 1 of whatever array the name is then
bound to.
-/

/-- A heap of rational arrays addressed by ids. -/
abbrev AHeap := Nat → List ℚ

/-- Update the array stored at id `i`. -/
def hupd (h : AHeap) (i : Nat) (v : List ℚ) : AHeap :=
  fun j => if j = i then v else h j

/-- The sort-interval construction of lines 152, 154 and 155, run on a
heap `h` whose next free id is `next` and where `interval_list[0]` is the
array at id `i`. Returns the final heap, the id `sort_interval` is bound
to, and the id of `interval_list[0]`. -/
def sortIntervalCells (h : AHeap) (next i : Nat) : AHeap × Nat × Nat :=
  -- line 152: sort_interval = interval_list[0]  (aliases id i)
  let si := i
  -- line 154: sort_interval = np.copy(interval_list[0])  (fresh id)
  let h1 := hupd h next (h si)
  let si := next
  -- line 155: sort_interval[1] = sort_interval[0] + 180
  let h2 := hupd h1 si ((h1 si).set 1 ((h1 si).getD 0 0 + 180))
  (h2, si, i)

/-!
## Dictionary heap model for ssr_key and ss_key (lines 231 to 240 and
364 to 368)

Python dictionaries are likewise heap objects: `ssr_key = key` aliases,
and the later `key = (...).fetch1("KEY")` rebinds the name `key` to a
fresh dictionary without touching the one `ssr_key` still points to.
-/

/-- A heap of dictionaries addressed by ids. -/
abbrev DHeap := Nat → Dict

/-- Update the dictionary stored at id `i`. -/
def dupd (h : DHeap) (i : Nat) (v : Dict) : DHeap :=
  fun j => if j = i then v else h j

/-- Lines 231 to 240: `key = dict()`, seven key assignments, then
`ssr_key = key`. Returns the heap, the id bound to `key`, the id bound to
`ssr_key`, and the next free id. -/
def ssrKeyCell (h : DHeap) (next : Nat) (nwb : String) : DHeap × Nat × Nat × Nat :=
  -- line 231: key = dict()
  let keyId := next
  let h := dupd h keyId []
  -- line 232
  let h := dupd h keyId (dictSet (h keyId) "nwb_file_name" (.vStr nwb))
  -- line 233
  let h := dupd h keyId (dictSet (h keyId) "sort_group_id" (.vInt 10))
  -- line 234
  let h := dupd h keyId (dictSet (h keyId) "sort_interval_name" (.vStr "02_r1_first180"))
  -- line 235
  let h := dupd h keyId (dictSet (h keyId) "filter_parameter_set_name" (.vStr "franklab_default_hippocampus"))
  -- line 236
  let h := dupd h keyId (dictSet (h keyId) "artifact_parameter_name" (.vStr "none"))
  -- line 237
  let h := dupd h keyId (dictSet (h keyId) "interval_list_name" (.vStr "02_r1"))
  -- line 238
  let h := dupd h keyId (dictSet (h keyId) "team_name" (.vStr "LorenLab"))
  -- line 240: ssr_key = key  (aliases the same dictionary)
  let ssrId := keyId
  (h, keyId, ssrId, next + 1)

/-- Lines 364 to 367: `key` is rebound to the row fetched from
`SpikeSortingWorkspace` (a fresh dictionary `keyRow`), `sorter_name` and
`spikesorter_parameter_set_name` are added to it, then `ss_key = key`.
Returns the heap, the id bound to `key` and `ss_key`, and the next free
id. -/
def ssKeyCell (h : DHeap) (next : Nat) (keyRow : Dict) (sorterName psName : String) :
    DHeap × Nat × Nat :=
  -- line 364: key = (SpikeSortingWorkspace & ssr_key).fetch1("KEY")
  let keyId := next
  let h := dupd h keyId keyRow
  -- line 365: key[sorter_name] = sorter_name
  let h := dupd h keyId (dictSet (h keyId) "sorter_name" (.vStr sorterName))
  -- line 366: key[spikesorter_parameter_set_name] = parameter_set_name
  let h := dupd h keyId (dictSet (h keyId) "spikesorter_parameter_set_name" (.vStr psName))
  -- line 367: ss_key = key
  (h, keyId, next + 1)

/-- The dictionary `ssr_key` holds after the assignments of lines 231 to
238, with Python insertion order. -/
def ssrKeyDict (nwb : String) : Dict := [
  ("nwb_file_name", .vStr nwb),
  ("sort_group_id", .vInt 10),
  ("sort_interval_name", .vStr "02_r1_first180"),
  ("filter_parameter_set_name", .vStr "franklab_default_hippocampus"),
  ("artifact_parameter_name", .vStr "none"),
  ("interval_list_name", .vStr "02_r1"),
  ("team_name", .vStr "LorenLab")
]

/-!
## The member_dict comprehension (notebook lines 409 to 411)

`member_emails = LabMember().LabMemberInfo().fetch(lab_member_name,
google_user_name)` yields two parallel columns; line 410 zips them and
keeps the email of every member whose name is in
`lorenlab_team_members`.
-/

/-- Line 410, exactly as authored: zip the two fetched columns and keep
the email of every pair whose name is in the team list. -/
def member_dict (names emails team : List String) : List String :=
  (((names.zip emails).filter (fun p => decide (p.1 ∈ team))).map Prod.snd)

/-- Restated from the spec sentence for comparison: the
`google_user_name` emails of those LabMemberInfo rows whose
`lab_member_name` appears in the team list, in fetch order. Each fetched
row is a (lab_member_name, google_user_name) pair. -/
def authorizedEmailsSpec (rows : List (String × String)) (team : List String) :
    List String :=
  (rows.filter (fun r => decide (r.1 ∈ team))).map Prod.snd

/-!
## Models of the external datajoint framework

The framework itself lives outside this repository, so its operations are
modelled from the spec.
-/

/-- Modelled from the spec: the datajoint `insert1` call, which the
repository does not contain. A table is a list of keyed rows; inserting a
row whose key is already present raises a duplicate error unless
`skip_duplicates` is passed, in which case the insert is suppressed and
the table is unchanged. -/
def insert1 {κ ρ : Type} [DecidableEq κ] (t : List (κ × ρ)) (k : κ) (r : ρ)
    (skipDup : Bool) : Except String (List (κ × ρ)) :=
  if t.any (fun p => p.1 = k) then
    if skipDup then .ok t else .error "DuplicateError"
  else .ok (t ++ [(k, r)])

/-- Modelled from the spec: the datajoint `fetch1` call restricted by a
key, which the repository does not contain. Returns the first row stored
under the key. -/
def fetch1 {κ ρ : Type} [DecidableEq κ] : List (κ × ρ) → κ → Option ρ
  | [], _ => none
  | p :: t, k => if p.1 = k then some p.2 else fetch1 t k

/-- Modelled from the spec: sequential synchronous cell execution, which
is performed by the Jupyter kernel, not by code in this repository. Each
statement acts on the state and may fail; execution is strictly
sequential and stops at the first failure. -/
def runAll {σ ε : Type} (effs : List (σ → Except ε σ)) (s : σ) : Except ε σ :=
  match effs with
  | [] => .ok s
  | f :: rest =>
    match f s with
    | .ok s1 => runAll rest s1
    | .error e => .error e

/-!
## Helper lemmas
-/

/-- Looking up a key just assigned returns the assigned value. -/
lemma dictGet_dictSet_self (d : Dict) (k : String) (v : Val) :
    dictGet (dictSet d k v) k = some v := by
  induction d with
  | nil => simp [dictSet, dictGet]
  | cons p d ih =>
    by_cases h : p.1 = k
    · simp [dictSet, h, dictGet]
    · simp [dictSet, h, dictGet, ih]

/-- Assigning one key leaves the lookup of any other key unchanged. -/
lemma dictGet_dictSet_ne (d : Dict) (k : String) (v : Val) (k' : String)
    (h : k' ≠ k) : dictGet (dictSet d k v) k' = dictGet d k' := by
  induction d with
  | nil => simp [dictSet, dictGet, Ne.symm h]
  | cons p d ih =>
    by_cases hp : p.1 = k
    · have hpk : ¬ p.1 = k' := by rw [hp]; exact Ne.symm h
      simp [dictSet, hp, dictGet, Ne.symm h, hpk]
    · by_cases hp' : p.1 = k'
      · simp [dictSet, hp, dictGet, hp', h]
      · simp [dictSet, hp, dictGet, hp', ih]

/-- A sequence of key assignments touching none of a given key leaves that
key's lookup unchanged. -/
lemma dictGet_applyOverrides_not_mem (ovs : List (String × Val)) (d : Dict)
    (k : String) (h : k ∉ ovs.map Prod.fst) :
    dictGet (applyOverrides d ovs) k = dictGet d k := by
  induction ovs generalizing d with
  | nil => rfl
  | cons kv ovs ih =>
    simp only [List.map_cons, List.mem_cons] at h
    push_neg at h
    rw [applyOverrides, List.foldl_cons]
    rw [show List.foldl (fun d kv => dictSet d kv.1 kv.2) (dictSet d kv.1 kv.2) ovs
          = applyOverrides (dictSet d kv.1 kv.2) ovs from rfl]
    rw [ih (dictSet d kv.1 kv.2) h.2, dictGet_dictSet_ne _ _ _ _ h.1]

/-- Fetching a key just appended to a table not containing it returns the
appended row. -/
lemma fetch1_append_fresh {κ ρ : Type} [DecidableEq κ] (t : List (κ × ρ))
    (k : κ) (r : ρ) (h : t.any (fun p => p.1 = k) = false) :
    fetch1 (t ++ [(k, r)]) k = some r := by
  induction t with
  | nil => simp [fetch1]
  | cons p t ih =>
    simp only [List.any_cons, Bool.or_eq_false_iff] at h
    have hp : ¬ p.1 = k := by simpa using h.1
    simpa [fetch1, hp] using ih h.2

/-- An insert with a fresh key appends the row. -/
lemma insert1_fresh {κ ρ : Type} [DecidableEq κ] (t : List (κ × ρ)) (k : κ)
    (r : ρ) (sd : Bool) (h : t.any (fun p => p.1 = k) = false) :
    insert1 t k r sd = .ok (t ++ [(k, r)]) := by
  simp [insert1, h]

/-- The behavior of the sort-interval construction of lines 152 to 155:
the original `interval_list[0]` array is untouched, and `sort_interval`
ends bound to the fresh copy holding the start time and the start time
plus 180. -/
lemma sortIntervalCells_spec (h : AHeap) (next i : Nat) (a b : ℚ)
    (hlt : i < next) (hv : h i = [a, b]) :
    (sortIntervalCells h next i).1 i = [a, b] ∧
    (sortIntervalCells h next i).2.1 = next ∧
    (sortIntervalCells h next i).1 (sortIntervalCells h next i).2.1
      = [a, a + 180] := by
  have hne : i ≠ next := Nat.ne_of_lt hlt
  refine ⟨?_, rfl, ?_⟩
  · simp [sortIntervalCells, hupd, hne, hv]
  · simp [sortIntervalCells, hupd, hv]

/-!
## Claims
-/

/-- C1, as stated by the spec: every statement of the notebook is a simple
key construction or a direct framework invocation, with no conditional
branch and no data-dependent filtering authored locally. This is false:
the LabTeam membership check on line 88 is a conditional branch, and the
`member_dict` construction on line 410 is a filtering comprehension. -/
theorem c1_claim_false : ¬ (∀ s ∈ notebook, isSimple s) := by decide

/-- C1, amended: every statement of the notebook is an import, a
constant/key assignment, a display, or a direct call into the external
framework, with no retry loop and no try/except failure handling, except
for exactly two statements: the LabTeam membership check on line 88 (a
conditional branch) and the member_dict comprehension on line 410
(data-dependent filtering). -/
theorem c1_simple_statements :
    ∀ s ∈ notebook, s.line ≠ 88 → s.line ≠ 410 → isSimple s := by decide

/-- Witness for C1: the SortInterval insert statement on line 163 is in
the notebook, is on neither exempted line, and is simple. -/
theorem c1_witness :
    isSimple { line := 163, kind := .call, desc := "SortInterval.insert1 dict",
               isInsert1 := true, skipDuplicates := true, rowIsDict := true } :=
  c1_simple_statements _ (by decide) (by decide) (by decide)

/-- C2: every insert1 call of the notebook passes skip_duplicates=True,
and, under the modelled framework semantics, inserting with duplicate
suppression a row whose key is already present leaves the table unchanged
and completes without an error, so re-running an insert1 cell is a no-op
on that table. -/
theorem c2_insert_skip_duplicates :
    (∀ s ∈ notebook, s.isInsert1 = true → s.skipDuplicates = true) ∧
    (∀ (κ ρ : Type) [DecidableEq κ] (t : List (κ × ρ)) (k : κ) (r : ρ),
      t.any (fun p => p.1 = k) = true → insert1 t k r true = .ok t) := by
  refine ⟨by decide, ?_⟩
  intro κ ρ _ t k r h
  simp [insert1, h]

/-- Witness for C2: the SortInterval insert statement on line 163 passes
skip_duplicates, and re-inserting the single row of a concrete one-row
table is a no-op. -/
theorem c2_witness :
    ({ line := 163, kind := .call, desc := "SortInterval.insert1 dict",
       isInsert1 := true, skipDuplicates := true, rowIsDict := true } : Stmt).skipDuplicates
      = true ∧
    insert1 [(("02_r1_first180" : String), Val.vInt 0)] "02_r1_first180" (Val.vInt 0) true
      = .ok [("02_r1_first180", Val.vInt 0)] :=
  ⟨c2_insert_skip_duplicates.1 _ (by decide) (by decide),
   c2_insert_skip_duplicates.2 String Val
     [("02_r1_first180", Val.vInt 0)] "02_r1_first180" (Val.vInt 0) (by decide)⟩

/-- C3, as stated by the spec: the row argument of every insert1 call of
the notebook is a key-value dictionary. This is false: the
LabMemberInfo.insert1 call on line 78 passes a positional list. -/
theorem c3_claim_false :
    ¬ (∀ s ∈ notebook, s.isInsert1 = true → s.rowIsDict = true) := by decide

/-- C3, amended: the row argument of every insert1 call of the notebook is
a key-value dictionary, except the LabMemberInfo.insert1 call on line 78,
which passes the row as a positional list. -/
theorem c3_rows_are_dicts :
    ∀ s ∈ notebook, s.isInsert1 = true → s.line ≠ 78 → s.rowIsDict = true := by
  decide

/-- Witness for C3: the SpikeSorterParameters insert on line 349 passes a
dictionary. -/
theorem c3_witness :
    ({ line := 349, kind := .call, desc := "SpikeSorterParameters.insert1 dict",
       isInsert1 := true, skipDuplicates := true, rowIsDict := true } : Stmt).rowIsDict
      = true :=
  c3_rows_are_dicts _ (by decide) (by decide) (by decide)

/-- C7: the notebook contains no try/except handler and no loop, so no
retry or error translation is authored here; and under the modelled
sequential cell execution, when a call fails, the error propagates to the
caller unchanged and no statement after the failing one runs, so no
further state change happens. -/
theorem c7_no_error_handling :
    (∀ s ∈ notebook, s.isTryExcept = false ∧ s.isLoop = false) ∧
    (∀ (σ ε : Type) (pre : List (σ → Except ε σ)) (f : σ → Except ε σ)
       (post : List (σ → Except ε σ)) (s0 s1 : σ) (e : ε),
      runAll pre s0 = .ok s1 → f s1 = .error e →
      runAll (pre ++ f :: post) s0 = .error e) := by
  refine ⟨by decide, ?_⟩
  intro σ ε pre f post s0 s1 e hpre hf
  induction pre generalizing s0 with
  | nil =>
    have : s1 = s0 := by simpa [runAll] using hpre.symm
    subst this
    simp [runAll, hf]
  | cons g pre ih =>
    rw [List.cons_append, runAll]
    rw [runAll] at hpre
    cases hg : g s0 with
    | ok s2 => rw [hg] at hpre; exact ih s2 hpre
    | error e2 => rw [hg] at hpre; exact absurd hpre (by simp)

/-- Witness for C7: the first import statement of the notebook has no
try/except and no loop, and a concrete failing call with an empty prefix
propagates its error. -/
theorem c7_witness :
    (({ line := 41, kind := .importDecl, desc := "import os" } : Stmt).isTryExcept = false ∧
     ({ line := 41, kind := .importDecl, desc := "import os" } : Stmt).isLoop = false) ∧
    runAll ([] ++ (fun _ : Nat => (Except.error "DuplicateError" : Except String Nat)) :: [])
      0 = .error "DuplicateError" :=
  ⟨c7_no_error_handling.1 _ (by decide),
   c7_no_error_handling.2 Nat String [] _ [] 0 0 "DuplicateError" rfl rfl⟩

/-- C4, as stated by the spec: the time interval used for sorting is
produced by an external library call and not computed locally, so the
interval bound to `sort_interval` equals the fetched `interval_list[0]`
unchanged. This is false: for the concrete 90-minute epoch from 0 to 5400
seconds, lines 152 to 155 compute the interval 0 to 180 locally, which
differs from the fetched interval. -/
theorem c4_claim_false :
    ¬ ((sortIntervalCells (fun _ => ([0, 5400] : List ℚ)) 1 0).1
        (sortIntervalCells (fun _ => ([0, 5400] : List ℚ)) 1 0).2.1
       = (fun _ => ([0, 5400] : List ℚ)) 0) := by
  norm_num [sortIntervalCells, hupd, List.getD]

/-- C4, amended: grouping electrodes (line 115), extracting and filtering
the recording (line 259), publishing the workspace (line 276), running the
sorter (line 378) and visualizing (line 395) are direct calls into
external library tables and services, but the time interval used for
sorting is computed by local numpy logic: its start is copied from the
fetched `interval_list[0]` and its end is the start plus 180. -/
theorem c4_delegation :
    (∀ s ∈ notebook,
      s.line = 115 ∨ s.line = 259 ∨ s.line = 276 ∨ s.line = 378 ∨ s.line = 395 →
      s.kind = .call) ∧
    (∀ (h : AHeap) (next i : Nat) (a b : ℚ), i < next → h i = [a, b] →
      (sortIntervalCells h next i).1 (sortIntervalCells h next i).2.1
        = [a, a + 180]) := by
  refine ⟨by decide, ?_⟩
  intro h next i a b hlt hv
  exact (sortIntervalCells_spec h next i a b hlt hv).2.2

/-- Witness for C4: the SortGroup statement on line 115 is a framework
call, and on the concrete heap holding the epoch from 0 to 5400 the
construction yields the locally computed interval 0 to 180. -/
theorem c4_witness :
    ({ line := 115, kind := .call, desc := "SortGroup set_group_by_shank" } : Stmt).kind
      = .call ∧
    (sortIntervalCells (fun _ => ([0, 5400] : List ℚ)) 1 0).1
        (sortIntervalCells (fun _ => ([0, 5400] : List ℚ)) 1 0).2.1
      = [0, (0 : ℚ) + 180] :=
  ⟨c4_delegation.1 _ (by decide) (Or.inl rfl),
   c4_delegation.2 (fun _ => ([0, 5400] : List ℚ)) 1 0 0 5400 (by norm_num) rfl⟩

/-- C5: the parameter dictionary the notebook builds and inserts carries
`num_workers = 4` unchanged; line 327 is the only statement of the
notebook mentioning `num_workers`, and that statement is a plain
assignment, not a branch or any concurrency logic. -/
theorem c5_num_workers_forwarded :
    (∀ (d : Dict) (c : Int),
      dictGet (spikeSorterParamsRow d c).parameter_dict "num_workers"
        = some (.vInt 4)) ∧
    (notebook.filter (fun s => s.mentionsNumWorkers)).map (fun s => s.line) = [327] ∧
    (∀ s ∈ notebook, s.mentionsNumWorkers = true → s.kind = .assign) := by
  refine ⟨?_, by decide, by decide⟩
  intro d c
  show dictGet (ms4ParamDict d c) "num_workers" = some (.vInt 4)
  unfold ms4ParamDict applyOverrides ms4Overrides
  simp only [List.foldl_cons, List.foldl_nil]
  rw [dictGet_dictSet_ne _ _ _ _ (by decide),
      dictGet_dictSet_ne _ _ _ _ (by decide),
      dictGet_dictSet_ne _ _ _ _ (by decide),
      dictGet_dictSet_self]

/-- Witness for C5: for the empty default dictionary and clip size 39, the
inserted parameter dictionary holds `num_workers = 4`, and the statement
on line 327 is an assignment. -/
theorem c5_witness :
    dictGet (spikeSorterParamsRow [] 39).parameter_dict "num_workers"
      = some (.vInt 4) ∧
    ({ line := 327, kind := .assign, desc := "param_dict num_workers set to 4",
       mentionsNumWorkers := true } : Stmt).kind = .assign :=
  ⟨c5_num_workers_forwarded.1 [] 39,
   c5_num_workers_forwarded.2.2 _ (by decide) (by decide)⟩

/-- C6: the user ids passed to `set_sorting_curation_authorized_users`
(the `member_dict` comprehension applied to the two fetched LabMemberInfo
columns) are exactly the `google_user_name` emails of those LabMemberInfo
rows whose `lab_member_name` is in the fetched LorenLab team-member list,
in fetch order. -/
theorem c6_authorized_users :
    ∀ (rows : List (String × String)) (team : List String),
      member_dict (rows.map Prod.fst) (rows.map Prod.snd) team
        = authorizedEmailsSpec rows team := by
  intro rows team
  induction rows with
  | nil => rfl
  | cons r rows ih =>
    by_cases h : r.1 ∈ team
    · simpa [member_dict, authorizedEmailsSpec, h] using ih
    · simpa [member_dict, authorizedEmailsSpec, h] using ih

/-- C8: constructing the 180-second sort interval does not mutate the
fetched `interval_list[0]`; the copy holds the start time and the start
time plus 180; inserting it into a SortInterval table not yet holding the
key and fetching it back returns exactly that interval; and its span is
exactly 180 seconds. -/
theorem c8_sort_interval_frame :
    ∀ (h : AHeap) (next i : Nat) (a b : ℚ)
      (t : List ((String × String) × List ℚ)),
      i < next → h i = [a, b] →
      t.any (fun p => p.1 = ("montague20200802_tutorial_.nwb", "02_r1_first180"))
        = false →
      (sortIntervalCells h next i).1 i = [a, b] ∧
      (sortIntervalCells h next i).1 (sortIntervalCells h next i).2.1
        = [a, a + 180] ∧
      insert1 t ("montague20200802_tutorial_.nwb", "02_r1_first180")
          ((sortIntervalCells h next i).1 (sortIntervalCells h next i).2.1) true
        = .ok (t ++ [(("montague20200802_tutorial_.nwb", "02_r1_first180"),
                      [a, a + 180])]) ∧
      fetch1 (t ++ [(("montague20200802_tutorial_.nwb", "02_r1_first180"),
                     [a, a + 180])])
          ("montague20200802_tutorial_.nwb", "02_r1_first180")
        = some [a, a + 180] ∧
      (a + 180) - a = 180 := by
  intro h next i a b t hlt hv hfresh
  obtain ⟨h1, _, h3⟩ := sortIntervalCells_spec h next i a b hlt hv
  refine ⟨h1, h3, ?_, fetch1_append_fresh t _ _ hfresh, by ring⟩
  rw [h3]
  exact insert1_fresh t _ _ true hfresh

/-- Witness for C8: on the concrete heap holding the epoch from 0 to 5400
at id 0 with next free id 1, and the empty SortInterval table, the
original epoch is untouched, the copy is the interval 0 to 180, the
insert-then-fetch round trip returns it, and the span is 180. -/
theorem c8_witness :
    (sortIntervalCells (fun _ => ([0, 5400] : List ℚ)) 1 0).1 0 = [0, 5400] ∧
    (sortIntervalCells (fun _ => ([0, 5400] : List ℚ)) 1 0).1
        (sortIntervalCells (fun _ => ([0, 5400] : List ℚ)) 1 0).2.1
      = [0, (0 : ℚ) + 180] ∧
    insert1 ([] : List ((String × String) × List ℚ))
        ("montague20200802_tutorial_.nwb", "02_r1_first180")
        ((sortIntervalCells (fun _ => ([0, 5400] : List ℚ)) 1 0).1
          (sortIntervalCells (fun _ => ([0, 5400] : List ℚ)) 1 0).2.1) true
      = .ok ([] ++ [(("montague20200802_tutorial_.nwb", "02_r1_first180"),
                     [0, (0 : ℚ) + 180])]) ∧
    fetch1 ([] ++ [(("montague20200802_tutorial_.nwb", "02_r1_first180"),
                    [0, (0 : ℚ) + 180])])
        ("montague20200802_tutorial_.nwb", "02_r1_first180")
      = some [0, (0 : ℚ) + 180] ∧
    ((0 : ℚ) + 180) - 0 = 180 :=
  c8_sort_interval_frame (fun _ => ([0, 5400] : List ℚ)) 1 0 0 5400 []
    (by norm_num) rfl rfl

/-- C9: after `ssr_key` is bound on line 240 to the same dictionary as
`key`, rebinding the name `key` on line 364 to the freshly fetched
workspace row and adding `sorter_name` and
`spikesorter_parameter_set_name` to that new dictionary (lines 365 to
366) leaves the dictionary `ssr_key` points to unchanged: it still holds
exactly the seven recording-key fields of lines 232 to 238, and `ss_key`
is bound to a different dictionary. -/
theorem c9_ssr_key_frame :
    ∀ (h0 : DHeap) (n : Nat) (nwb : String) (keyRow : Dict),
      (ssKeyCell (ssrKeyCell h0 n nwb).1 (ssrKeyCell h0 n nwb).2.2.2 keyRow
          "mountainsort4" "franklab_hippocampus_tutorial").1
          ((ssrKeyCell h0 n nwb).2.2.1)
        = (ssrKeyCell h0 n nwb).1 ((ssrKeyCell h0 n nwb).2.2.1) ∧
      (ssrKeyCell h0 n nwb).1 ((ssrKeyCell h0 n nwb).2.2.1) = ssrKeyDict nwb ∧
      (ssrKeyCell h0 n nwb).2.2.1
        ≠ (ssKeyCell (ssrKeyCell h0 n nwb).1 (ssrKeyCell h0 n nwb).2.2.2 keyRow
            "mountainsort4" "franklab_hippocampus_tutorial").2.1 := by
  intro h0 n nwb keyRow
  have hne : n ≠ n + 1 := by omega
  refine ⟨?_, ?_, ?_⟩
  · show (ssKeyCell (ssrKeyCell h0 n nwb).1 (n + 1) keyRow
        "mountainsort4" "franklab_hippocampus_tutorial").1 n
      = (ssrKeyCell h0 n nwb).1 n
    simp [ssKeyCell, dupd, hne]
  · show (ssrKeyCell h0 n nwb).1 n = ssrKeyDict nwb
    simp [ssrKeyCell, dupd, dictSet, ssrKeyDict]
  · show n ≠ n + 1
    exact hne

/-- C10: the parameter dictionary inserted for mountainsort4 under
`franklab_hippocampus_tutorial` agrees with the fetched default
`parameter_dict` on every key other than the eleven keys explicitly
overwritten on lines 316 to 331. -/
theorem c10_param_dict_overrides :
    ∀ (d : Dict) (c : Int) (k : String),
      k ∉ ["detect_sign", "adjacency_radius", "curation", "filter", "freq_min",
           "freq_max", "whiten", "num_workers", "verbose", "clip_size",
           "noise_overlap_threshold"] →
      dictGet (spikeSorterParamsRow d c).parameter_dict k = dictGet d k := by
  intro d c k hk
  show dictGet (ms4ParamDict d c) k = dictGet d k
  apply dictGet_applyOverrides_not_mem
  simpa [ms4Overrides] using hk

/-- Witness for C10: a default dictionary holding a `detect_interval`
entry keeps it unchanged through the eleven overwrites. -/
theorem c10_witness :
    dictGet (spikeSorterParamsRow [("detect_interval", Val.vInt 10)] 39).parameter_dict
        "detect_interval"
      = dictGet [("detect_interval", Val.vInt 10)] "detect_interval" :=
  c10_param_dict_overrides [("detect_interval", Val.vInt 10)] 39 "detect_interval"
    (by decide)
